import Mathlib

/-!
# Medical-Chatbot: verification of the spec against the code

Shallow embedding of the Medical-Chatbot repository's frontend logic
(React components `UploadPDF`, `ChatBox`, `PDFManager`, `App`) and, for
the two claims about the retrieval backend that is not part of the
provided sources, a model built from the specification's words
(Chunk Store / Retriever / Chunker).

Conventions: JavaScript strings are Lean `String`s, JS numbers that hold
byte counts / ids are `Nat`, React `useState` cells become fields of an
explicit state record, an async HTTP call becomes an explicit outcome
parameter (`Except String α`: `.error e` is a transport failure or a
`success: false` body, `.ok r` a `success: true` body), and
`new Date().toISOString()` becomes a timestamp parameter.
-/

namespace MedicalChatbot

/-! ## JavaScript string primitives

Defined structurally over the character list so that concrete instances
evaluate inside the kernel. -/

/-- JS `String.prototype.toLowerCase` (ASCII-faithful). -/
def jsToLower (s : String) : String := ⟨s.data.map Char.toLower⟩

/-- JS `String.prototype.endsWith`. -/
def jsEndsWith (s suffix : String) : Bool := suffix.data.isSuffixOf s.data

/-- JS `String.prototype.trim`: strip leading and trailing whitespace. -/
def jsTrim (s : String) : String :=
  ⟨((s.data.dropWhile Char.isWhitespace).reverse.dropWhile Char.isWhitespace).reverse⟩

/-! ## Upload file selection (`UploadPDF.handleFileChange`) -/

/-- A file as delivered by the browser's file input: `name`, `size` in
bytes, and MIME `type`. -/
structure JsFile where
  name : String
  size : Nat
  type : String
deriving DecidableEq, Repr

/-- The two pieces of state `handleFileChange` computes: the list
`validFiles` that becomes `selectedFiles`, and the list `errors` that is
joined into the error banner. -/
structure FileValidation where
  validFiles : List JsFile
  errors : List String
deriving DecidableEq, Repr

/-- `file.type !== 'application/pdf' && !file.name.toLowerCase().endsWith('.pdf')`
is the rejection test; this is its complement, the acceptance test. -/
def isPdf (file : JsFile) : Bool :=
  file.type == "application/pdf" || jsEndsWith (jsToLower file.name) ".pdf"

/-- `file.size > 10 * 1024 * 1024` is the rejection test. -/
def tooLarge (file : JsFile) : Bool :=
  file.size > 10 * 1024 * 1024

/-- `validFiles.some(f => f.name === file.name && f.size === file.size)`. -/
def sameNameSize (f file : JsFile) : Bool :=
  f.name == file.name && f.size == file.size

/-- One iteration of the `files.forEach` body of `handleFileChange`:
type check, then size check, then duplicate check, else keep the file. -/
def validateFile (acc : FileValidation) (file : JsFile) : FileValidation :=
  if !(isPdf file) then
    { acc with errors := acc.errors ++ [file.name ++ " is not a PDF file"] }
  else if tooLarge file then
    { acc with errors := acc.errors ++ [file.name ++ " is too large (max 10MB)"] }
  else if acc.validFiles.any (fun f => sameNameSize f file) then
    { acc with errors := acc.errors ++ [file.name ++ " is already selected"] }
  else
    { acc with validFiles := acc.validFiles ++ [file] }

/-- `handleFileChange`: fold the per-file validation over the batch,
starting from empty `validFiles` and `errors`. -/
def handleFileChange (files : List JsFile) : FileValidation :=
  files.foldl validateFile ⟨[], []⟩

/-- The claim's acceptance predicate: a PDF of at most 10 MiB. -/
def claimValid (file : JsFile) : Bool :=
  isPdf file && !(tooLarge file)

/-- First-occurrence deduplication by the (name, size) key, relative to
an accumulator of already-kept files. -/
def dedupByKey (acc : List JsFile) : List JsFile → List JsFile
  | [] => acc
  | f :: fs =>
    if acc.any (fun g => sameNameSize g f) then dedupByKey acc fs
    else dedupByKey (acc ++ [f]) fs

/-! ## Chat component (`ChatBox`) -/

/-- One rendered chat message: the fields the component attaches in
`sendMessage` / `loadChatHistory`.  Absent JS fields are the defaults
(`isLoading`/`isError` absent ≃ falsy, `responseTime` absent ≃ `none`). -/
structure ChatMsg where
  sender : String
  text : String
  timestamp : String
  isLoading : Bool := false
  isError : Bool := false
  responseTime : Option Nat := none
  contextUsed : Bool := false
  sourcesCount : Nat := 0
deriving DecidableEq, Repr

/-- The `useState` cells of `ChatBox` that `sendMessage`, `clearChat` and
`loadChatHistory` read or write. -/
structure ChatState where
  input : String
  messages : List ChatMsg
  isLoading : Bool
  error : String
deriving DecidableEq, Repr

/-- The body of a `success: true` response of `POST /chat`. -/
structure BotReply where
  reply : String
  response_time_ms : Nat
  context_used : Bool
  sources_count : Nat
deriving DecidableEq, Repr

/-- `sendMessage`.  The HTTP call is the `outcome` parameter: `.error e`
covers both a transport failure and a `success: false` body (the code
turns the latter into a thrown `Error` handled by the same `catch`), with
`e` the error text the catch block computes.  The three timestamps stand
for the three `new Date().toISOString()` calls.  The second component of
the result is the request that was issued (`none` when the guard
`!input.trim() || isLoading` returned early). -/
def sendMessage (st : ChatState) (outcome : Except String BotReply)
    (tsUser tsLoading tsBot : String) : ChatState × Option String :=
  if jsTrim st.input == "" || st.isLoading then (st, none)
  else
    let userMessage := jsTrim st.input
    let userMsgObj : ChatMsg := { sender := "user", text := userMessage, timestamp := tsUser }
    let loadingMsgObj : ChatMsg :=
      { sender := "bot", text := "🤔 Thinking...", isLoading := true, timestamp := tsLoading }
    let msgs := st.messages ++ [userMsgObj, loadingMsgObj]
    match outcome with
    | .ok r =>
      ({ input := "", error := "", isLoading := false,
         messages := msgs.filter (fun m => !m.isLoading) ++
           [{ sender := "bot", text := r.reply, responseTime := some r.response_time_ms,
              contextUsed := r.context_used, sourcesCount := r.sources_count,
              timestamp := tsBot }] }, some userMessage)
    | .error e =>
      ({ input := "", error := e, isLoading := false,
         messages := msgs.filter (fun m => !m.isLoading) ++
           [{ sender := "bot", text := "❌ Error: " ++ e, isError := true,
              timestamp := tsBot }] }, some userMessage)

/-- One element of `response.data.messages` of `GET /get_chat_history`. -/
structure ApiMessage where
  user_message : String
  bot_response : String
  timestamp : String
  response_time_ms : Nat
deriving DecidableEq, Repr

/-- The user-side element `loadChatHistory` builds from one pair. -/
def userEntry (m : ApiMessage) : ChatMsg :=
  { sender := "user", text := m.user_message, timestamp := m.timestamp }

/-- The bot-side element `loadChatHistory` builds from one pair. -/
def botEntry (m : ApiMessage) : ChatMsg :=
  { sender := "bot", text := m.bot_response, timestamp := m.timestamp,
    responseTime := some m.response_time_ms }

/-- The `flatMap` in `loadChatHistory` converting API pairs to the flat
component message list. -/
def historyMessages (msgs : List ApiMessage) : List ChatMsg :=
  msgs.flatMap (fun m => [userEntry m, botEntry m])

/-- `loadChatHistory` over the state: on success replace `messages` with
the converted list, on failure set the error banner. -/
def loadChatHistory (st : ChatState) (outcome : Except String (List ApiMessage)) :
    ChatState :=
  match outcome with
  | .ok msgs => { st with messages := historyMessages msgs }
  | .error _ => { st with error := "Failed to load chat history" }

/-- `clearChat`: gated by `window.confirm`; on a successful DELETE the
messages are emptied and the error banner cleared, on a failed DELETE
only the error banner is set. -/
def clearChat (st : ChatState) (confirmed : Bool) (outcome : Except String Unit) :
    ChatState :=
  if !confirmed then st
  else
    match outcome with
    | .ok _ => { st with messages := [], error := "" }
    | .error _ => { st with error := "Failed to clear chat" }

/-! ## Document list (`App.handlePDFRemoved`, `PDFManager.removePDF`) -/

/-- One entry of `uploadedPDFs` (shape of `GET /get_pdfs` items). -/
structure PdfEntry where
  id : Nat
  original_filename : String
  file_size : Nat
  upload_time : String
  chunk_count : Nat
deriving DecidableEq, Repr

/-- `App.handlePDFRemoved`: `prev.filter(pdf => pdf.id !== pdfId)`. -/
def handlePDFRemoved (pdfs : List PdfEntry) (pdfId : Nat) : List PdfEntry :=
  pdfs.filter (fun pdf => pdf.id != pdfId)

/-- The state `removePDF` touches: the document list (held by `App` and
updated through the `onPDFRemoved` callback) and the error banner. -/
structure ManagerState where
  pdfs : List PdfEntry
  error : String
deriving DecidableEq, Repr

/-- `PDFManager.removePDF`: confirm, clear the error, issue the DELETE;
on success invoke `onPDFRemoved` (the `App.handlePDFRemoved` filter), on
failure set the error banner and leave the list alone. -/
def removePDF (st : ManagerState) (pdfId : Nat) (filename : String)
    (confirmed : Bool) (outcome : Except String Unit) : ManagerState :=
  if !confirmed then st
  else
    match outcome with
    | .ok _ => { pdfs := handlePDFRemoved st.pdfs pdfId, error := "" }
    | .error e => { st with error := "Failed to remove " ++ filename ++ ": " ++ e }

/-! ## `formatFileSize` (UploadPDF and PDFManager, identical code) -/

/-- The `sizes` array of `formatFileSize`. -/
def sizesUnits : List String := ["Bytes", "KB", "MB", "GB"]

/-- `Math.floor(Math.log(bytes) / Math.log(1024))` in exact real
arithmetic: for a positive integer this is the integer logarithm base
1024. -/
def sizeIndex (bytes : Nat) : Nat := Nat.log 1024 bytes

/-- The unit suffix `formatFileSize` appends: `'0 Bytes'` short-circuits
at zero, otherwise `sizes[i]`; a JavaScript out-of-bounds read yields
`undefined`, which concatenates as the string "undefined". -/
def sizeUnit (bytes : Nat) : String :=
  if bytes = 0 then "Bytes" else sizesUnits.getD (sizeIndex bytes) "undefined"

/-! ## Retrieval backend (not in the provided sources; modelled from the
spec, §4.4–4.5) -/

/-- Modelled from the spec: a Chunk row of the Chunk Store.  The backend
(Flask + SQLAlchemy) is not part of the provided sources; per §3 a chunk
belongs to exactly one document, which belongs to exactly one session, so
a row carries exactly one `sessionId` and one `documentId`.  Embedding
vectors are integer lists (exact arithmetic stands in for the model's
floats). -/
structure ChunkRecord where
  sessionId : String
  documentId : Nat
  seqIndex : Nat
  text : String
  vector : List Int
deriving DecidableEq, Repr

/-- Modelled from the spec: similarity as a dot product (§4.4 allows
"normalized dot product" as the monotonic equivalent of cosine). -/
def dot : List Int → List Int → Int
  | [], _ => 0
  | _, [] => 0
  | a :: as, b :: bs => a * b + dot as bs

/-- Similarity of a stored chunk to the query vector. -/
def similarity (q : List Int) (c : ChunkRecord) : Int := dot q c.vector

/-- Insertion step of the ranking sort. -/
def insertBy (le : α → α → Bool) (a : α) : List α → List α
  | [] => [a]
  | b :: bs => if le a b then a :: b :: bs else b :: insertBy le a bs

/-- Insertion sort by a boolean "comes no later than" relation. -/
def sortBy (le : α → α → Bool) (l : List α) : List α :=
  l.foldr (insertBy le) []

/-- Modelled from the spec: the ranking order of §4.4 — higher similarity
first; on ties lower sequence index, then lower document id. -/
def ranksBefore (v : List Int) (a b : ChunkRecord) : Bool :=
  decide (similarity v b < similarity v a) ||
    (decide (similarity v a = similarity v b) &&
      (decide (a.seqIndex < b.seqIndex) ||
        (decide (a.seqIndex = b.seqIndex) && decide (a.documentId ≤ b.documentId))))

/-- Modelled from the spec: `ChunkStore.query(sessionId, vector, k)` —
restrict the store to the session's rows, rank by similarity, take `k`
(§4.4: a brute-force linear scan restricted to that session only). -/
def query (store : List ChunkRecord) (sessionId : String) (v : List Int) (k : Nat) :
    List ChunkRecord :=
  (sortBy (fun a b => ranksBefore v a b)
    (store.filter (fun c => c.sessionId == sessionId))).take k

/-- Modelled from the spec: `Retriever.retrieve(sessionId, queryText, k)`
— embed the query text, then `query` the Chunk Store (§4.5); the caller
projects `(chunkText, documentId, similarityScore)` from the returned
rows. -/
def retrieve (embed : String → List Int) (store : List ChunkRecord)
    (sessionId : String) (queryText : String) (k : Nat) : List ChunkRecord :=
  query store sessionId (embed queryText) k

/-! ## Chunker (not in the provided sources; modelled from the spec,
§4.2) -/

/-- Failure signal of the Chunker (§4.2). -/
inductive ChunkError where
  | InvalidChunkConfig
deriving DecidableEq, Repr

/-- Chunker configuration (§4.2). -/
structure ChunkConfig where
  chunk_size : Nat
  overlap : Nat
deriving DecidableEq, Repr

/-- Modelled from the spec: the sliding window of §4.2 — emit
`chunk_size` characters, advance by `step = chunk_size - overlap`; the
final chunk may be shorter.  The step is passed as `stepMinus1 + 1` so
that the recursion visibly consumes text. -/
def chunksFrom (chunk_size stepMinus1 : Nat) (s : List Char) : List (List Char) :=
  if s.length = 0 then []
  else if s.length ≤ chunk_size then [s]
  else s.take chunk_size :: chunksFrom chunk_size stepMinus1 (s.drop (stepMinus1 + 1))
termination_by s.length
decreasing_by
  simp only [List.length_drop]
  omega

/-- Modelled from the spec: the Chunker of §4.2 — fail with
`InvalidChunkConfig` when `overlap >= chunk_size`, otherwise window the
text with step `chunk_size - overlap`. -/
def chunker (cfg : ChunkConfig) (text : String) : Except ChunkError (List String) :=
  if cfg.overlap ≥ cfg.chunk_size then .error .InvalidChunkConfig
  else
    .ok ((chunksFrom cfg.chunk_size (cfg.chunk_size - cfg.overlap - 1) text.toList).map
      (fun cs => String.mk cs))

/-! ## Concrete data for counterexamples and witnesses -/

/-- The key-distinctness relation of the duplicate check: two files are
key-distinct when they do not agree on both name and size. -/
def keyDistinct (a b : JsFile) : Prop := ¬(a.name = b.name ∧ a.size = b.size)

/-- The file used by the C2 counterexample: a valid small PDF. -/
def fileA : JsFile := ⟨"a.pdf", 5, "application/pdf"⟩

/-- The file used by the C2 counterexample: also a valid small PDF (by
extension), sharing name and size with `fileA` but a distinct file. -/
def fileB : JsFile := ⟨"a.pdf", 5, "text/plain"⟩

/-- A one-chunk store row of session "A", used by the C1 witness. -/
def chunkA : ChunkRecord := ⟨"A", 1, 0, "hello", [1]⟩

/-! ## Theorems -/

lemma validateFile_notPdf (acc : FileValidation) (f : JsFile)
    (h1 : isPdf f = false) :
    validateFile acc f =
      { acc with errors := acc.errors ++ [f.name ++ " is not a PDF file"] } := by
  simp [validateFile, h1]

lemma validateFile_tooLarge (acc : FileValidation) (f : JsFile)
    (h1 : isPdf f = true) (h2 : tooLarge f = true) :
    validateFile acc f =
      { acc with errors := acc.errors ++ [f.name ++ " is too large (max 10MB)"] } := by
  simp [validateFile, h1, h2]

lemma validateFile_dup (acc : FileValidation) (f : JsFile)
    (h1 : isPdf f = true) (h2 : tooLarge f = false)
    (h3 : acc.validFiles.any (fun g => sameNameSize g f) = true) :
    validateFile acc f =
      { acc with errors := acc.errors ++ [f.name ++ " is already selected"] } := by
  simp only [validateFile, h1, h2, h3, Bool.not_true, Bool.false_eq_true, if_false, if_true]

lemma validateFile_keep (acc : FileValidation) (f : JsFile)
    (h1 : isPdf f = true) (h2 : tooLarge f = false)
    (h3 : acc.validFiles.any (fun g => sameNameSize g f) = false) :
    validateFile acc f = { acc with validFiles := acc.validFiles ++ [f] } := by
  simp only [validateFile, h1, h2, h3, Bool.not_true, Bool.false_eq_true, if_false, if_true]

lemma foldl_validateFile_validFiles (files : List JsFile) (acc : List JsFile)
    (errs : List String) :
    (files.foldl validateFile ⟨acc, errs⟩).validFiles =
      dedupByKey acc (files.filter claimValid) := by
  induction files generalizing acc errs with
  | nil => simp [dedupByKey]
  | cons f fs ih =>
    simp only [List.foldl_cons, List.filter_cons]
    by_cases h1 : isPdf f
    · by_cases h2 : tooLarge f
      · rw [validateFile_tooLarge ⟨acc, errs⟩ f h1 h2, ih]
        simp [claimValid, h1, h2]
      · by_cases h3 : acc.any (fun g => sameNameSize g f)
        · rw [validateFile_dup ⟨acc, errs⟩ f h1 (by simpa using h2) h3, ih]
          simp only [claimValid, h1, h2]
          simp [dedupByKey, h3]
        · rw [validateFile_keep ⟨acc, errs⟩ f h1 (by simpa using h2)
            (by simpa using h3), ih]
          simp only [claimValid, h1, h2]
          simp only [Bool.true_and]
          rw [if_pos (by simpa using h2)]
          simp [dedupByKey, (by simpa using h3 : acc.any (fun g => sameNameSize g f) = false)]
    · rw [validateFile_notPdf ⟨acc, errs⟩ f (by simpa using h1), ih]
      simp [claimValid, (by simpa using h1 : isPdf f = false)]

lemma foldl_validateFile_count (files : List JsFile) (acc : List JsFile)
    (errs : List String) :
    (files.foldl validateFile ⟨acc, errs⟩).validFiles.length +
      (files.foldl validateFile ⟨acc, errs⟩).errors.length =
      acc.length + errs.length + files.length := by
  induction files generalizing acc errs with
  | nil => simp
  | cons f fs ih =>
    simp only [List.foldl_cons]
    by_cases h1 : isPdf f
    · by_cases h2 : tooLarge f
      · rw [validateFile_tooLarge ⟨acc, errs⟩ f h1 h2]
        have := ih acc (errs ++ [f.name ++ " is too large (max 10MB)"])
        simp only [this]
        simp
        omega
      · by_cases h3 : acc.any (fun g => sameNameSize g f)
        · rw [validateFile_dup ⟨acc, errs⟩ f h1 (by simpa using h2) h3]
          have := ih acc (errs ++ [f.name ++ " is already selected"])
          simp only [this]
          simp
          omega
        · rw [validateFile_keep ⟨acc, errs⟩ f h1 (by simpa using h2) (by simpa using h3)]
          have := ih (acc ++ [f]) errs
          simp only [this]
          simp
          omega
    · rw [validateFile_notPdf ⟨acc, errs⟩ f (by simpa using h1)]
      have := ih acc (errs ++ [f.name ++ " is not a PDF file"])
      simp only [this]
      simp
      omega

lemma foldl_validateFile_errors (files : List JsFile) (acc : List JsFile)
    (errs : List String) :
    ∀ e ∈ (files.foldl validateFile ⟨acc, errs⟩).errors,
      e ∈ errs ∨ ∃ f ∈ files, ∃ s, e = f.name ++ s := by
  induction files generalizing acc errs with
  | nil => simp
  | cons f fs ih =>
    intro e he
    simp only [List.foldl_cons] at he
    have step :
        ∀ msg : String,
          e ∈ (fs.foldl validateFile ⟨acc, errs ++ [f.name ++ msg]⟩).errors →
          e ∈ errs ∨ ∃ g ∈ f :: fs, ∃ s, e = g.name ++ s := by
      intro msg hmem
      rcases ih acc (errs ++ [f.name ++ msg]) e hmem with h | ⟨g, hg, s, rfl⟩
      · rcases List.mem_append.mp h with h | h
        · exact Or.inl h
        · exact Or.inr ⟨f, by simp, msg, List.mem_singleton.mp h⟩
      · exact Or.inr ⟨g, by simp [hg], s, rfl⟩
    by_cases h1 : isPdf f
    · by_cases h2 : tooLarge f
      · rw [validateFile_tooLarge ⟨acc, errs⟩ f h1 h2] at he
        exact step _ he
      · by_cases h3 : acc.any (fun g => sameNameSize g f)
        · rw [validateFile_dup ⟨acc, errs⟩ f h1 (by simpa using h2) h3] at he
          exact step _ he
        · rw [validateFile_keep ⟨acc, errs⟩ f h1 (by simpa using h2)
            (by simpa using h3)] at he
          rcases ih (acc ++ [f]) errs e he with h | ⟨g, hg, s, rfl⟩
          · exact Or.inl h
          · exact Or.inr ⟨g, by simp [hg], s, rfl⟩
    · rw [validateFile_notPdf ⟨acc, errs⟩ f (by simpa using h1)] at he
      exact step _ he

lemma foldl_validateFile_pairwise (files : List JsFile) (acc : List JsFile)
    (errs : List String) (hacc : acc.Pairwise keyDistinct) :
    (files.foldl validateFile ⟨acc, errs⟩).validFiles.Pairwise keyDistinct := by
  induction files generalizing acc errs with
  | nil => exact hacc
  | cons f fs ih =>
    simp only [List.foldl_cons]
    by_cases h1 : isPdf f
    · by_cases h2 : tooLarge f
      · rw [validateFile_tooLarge ⟨acc, errs⟩ f h1 h2]
        exact ih _ _ hacc
      · by_cases h3 : acc.any (fun g => sameNameSize g f)
        · rw [validateFile_dup ⟨acc, errs⟩ f h1 (by simpa using h2) h3]
          exact ih _ _ hacc
        · rw [validateFile_keep ⟨acc, errs⟩ f h1 (by simpa using h2)
            (by simpa using h3)]
          apply ih
          rw [List.pairwise_append]
          refine ⟨hacc, List.pairwise_singleton _ _, ?_⟩
          intro a ha b hb
          rw [List.mem_singleton] at hb
          have hfalse : acc.any (fun g => sameNameSize g f) = false := by
            simpa using h3
          have hall := List.any_eq_false.mp hfalse
          intro hkey
          rw [hb] at hkey
          exact absurd (by simp [sameNameSize, hkey.1, hkey.2]) (hall a ha)
    · rw [validateFile_notPdf ⟨acc, errs⟩ f (by simpa using h1)]
      exact ih _ _ hacc

/-- C2 (counterexample): `fileB` is a PDF of at most 10 MiB, yet the
selection produced from the batch `[fileA, fileB]` does not contain it —
the duplicate check of `handleFileChange` rejects any file agreeing in
name and size with an earlier kept file, so the selection is not exactly
the valid input files. -/
theorem C2_selection_counterexample :
    claimValid fileB = true ∧
      fileB ∉ (handleFileChange [fileA, fileB]).validFiles := by
  constructor
  · decide
  · decide

/-- C2 (amended): the selection is the valid input files (PDF by MIME
type or `.pdf` extension, at most `10 * 1024 * 1024` bytes) deduplicated
by the (name, size) key keeping first occurrences; every rejected file
contributes exactly one error (counts add up to the batch size), and
every error message begins with the name of a file of the batch.
Rejecting one file never removes a different valid file: the kept files
are exactly the first-occurrence valid ones, independent of the rejected
ones. -/
theorem C2_selection_valid_files (files : List JsFile) :
    (handleFileChange files).validFiles = dedupByKey [] (files.filter claimValid) ∧
      (handleFileChange files).validFiles.length +
        (handleFileChange files).errors.length = files.length ∧
      ∀ e ∈ (handleFileChange files).errors, ∃ f ∈ files, ∃ s, e = f.name ++ s := by
  refine ⟨foldl_validateFile_validFiles files [] [], ?_, ?_⟩
  · have := foldl_validateFile_count files [] []
    simpa [handleFileChange] using this
  · intro e he
    rcases foldl_validateFile_errors files [] [] e he with h | h
    · simp at h
    · exact h

/-- C9: after `handleFileChange`, no two files of the selection agree on
both name and size — the duplicate check keeps the selection
duplicate-free under the (name, size) key, for every input batch. -/
theorem C9_selection_duplicate_free (files : List JsFile) :
    (handleFileChange files).validFiles.Pairwise
      (fun a b => ¬(a.name = b.name ∧ a.size = b.size)) :=
  foldl_validateFile_pairwise files [] [] (List.Pairwise.nil)

/-- C3: for a chat turn whose request fails or whose response has
`success: false` (both reach the same `catch`), `sendMessage` removes the
transient loading placeholder, appends exactly one bot message marked
`isError` with text `"❌ Error: " ++ e`, and leaves every previously
displayed message — including the user's own message of the turn —
unchanged.  The hypotheses: the turn actually proceeds (non-blank input,
not already loading) and the displayed list holds no stale loading
placeholder (an invariant of the component: every exit of `sendMessage`
filters them out). -/
theorem C3_send_message_error_turn (st : ChatState) (e : String)
    (tsU tsL tsB : String)
    (hinput : (jsTrim st.input == "") = false) (hload : st.isLoading = false)
    (hclean : ∀ m ∈ st.messages, m.isLoading = false) :
    (sendMessage st (.error e) tsU tsL tsB).1.messages =
      st.messages ++
        [{ sender := "user", text := jsTrim st.input, timestamp := tsU },
         { sender := "bot", text := "❌ Error: " ++ e, isError := true,
           timestamp := tsB }] ∧
      (sendMessage st (.error e) tsU tsL tsB).1.error = e := by
  have hfilter : st.messages.filter (fun m => !m.isLoading) = st.messages :=
    List.filter_eq_self.mpr (fun m hm => by simp [hclean m hm])
  constructor
  · simp only [sendMessage, hinput, hload, Bool.or_self, Bool.false_eq_true, if_false]
    rw [List.filter_append, hfilter]
    simp
  · simp [sendMessage, hinput, hload]

/-- Witness for C3 at a concrete state: one prior exchange, input "hi",
failing request "boom". -/
theorem C3_send_message_error_turn_witness :
    (sendMessage ⟨"hi", [⟨"user", "old", "t0", false, false, none, false, 0⟩],
        false, ""⟩ (.error "boom") "t1" "t2" "t3").1.messages =
      [⟨"user", "old", "t0", false, false, none, false, 0⟩] ++
        [{ sender := "user", text := jsTrim "hi", timestamp := "t1" },
         { sender := "bot", text := "❌ Error: " ++ "boom", isError := true,
           timestamp := "t3" }] ∧
      (sendMessage ⟨"hi", [⟨"user", "old", "t0", false, false, none, false, 0⟩],
        false, ""⟩ (.error "boom") "t1" "t2" "t3").1.error = "boom" :=
  C3_send_message_error_turn
    ⟨"hi", [⟨"user", "old", "t0", false, false, none, false, 0⟩], false, ""⟩
    "boom" "t1" "t2" "t3" (by decide) rfl
    (by intro m hm; rw [List.mem_singleton] at hm; rw [hm])

lemma historyMessages_cons (m : ApiMessage) (ms : List ApiMessage) :
    historyMessages (m :: ms) = userEntry m :: botEntry m :: historyMessages ms := by
  simp [historyMessages]

lemma historyMessages_length (msgs : List ApiMessage) :
    (historyMessages msgs).length = 2 * msgs.length := by
  induction msgs with
  | nil => rfl
  | cons m ms ih =>
    rw [historyMessages_cons]
    simp only [List.length_cons, ih, List.length_cons]
    omega

lemma historyMessages_getElem (msgs : List ApiMessage) (i : Nat) :
    (historyMessages msgs)[2 * i]? = msgs[i]?.map userEntry ∧
      (historyMessages msgs)[2 * i + 1]? = msgs[i]?.map botEntry := by
  induction msgs generalizing i with
  | nil => simp [historyMessages]
  | cons m ms ih =>
    cases i with
    | zero => simp [historyMessages_cons]
    | succ j =>
      rw [historyMessages_cons]
      constructor
      · rw [show 2 * (j + 1) = 2 * j + 1 + 1 by ring]
        rw [List.getElem?_cons_succ, List.getElem?_cons_succ, List.getElem?_cons_succ]
        exact (ih j).1
      · rw [show 2 * (j + 1) + 1 = (2 * j + 1) + 1 + 1 by ring]
        rw [List.getElem?_cons_succ, List.getElem?_cons_succ, List.getElem?_cons_succ]
        exact (ih j).2

/-- C4: `loadChatHistory` applied to a successful history response of
`n` pairs yields a flat list of length `2 * n` whose entry `2i` is pair
`i`'s user message and whose entry `2i + 1` is pair `i`'s bot response;
by definition of `userEntry` and `botEntry` both carry pair `i`'s
timestamp (stated as the last conjunct), so the pairs' order is preserved
in the rendered sequence. -/
theorem C4_history_flattening (st : ChatState) (msgs : List ApiMessage) :
    (loadChatHistory st (.ok msgs)).messages.length = 2 * msgs.length ∧
      (∀ i : Nat,
        (loadChatHistory st (.ok msgs)).messages[2 * i]? = msgs[i]?.map userEntry ∧
        (loadChatHistory st (.ok msgs)).messages[2 * i + 1]? = msgs[i]?.map botEntry) ∧
      ∀ m : ApiMessage,
        (userEntry m).timestamp = m.timestamp ∧ (botEntry m).timestamp = m.timestamp := by
  refine ⟨historyMessages_length msgs, fun i => historyMessages_getElem msgs i,
    fun m => ⟨rfl, rfl⟩⟩

/-- C5: a confirmed `clearChat` whose DELETE succeeds leaves the message
list empty and the error banner cleared; a confirmed `clearChat` whose
DELETE fails leaves the message list exactly as it was. -/
theorem C5_clear_chat_atomic (st : ChatState) (e : String) :
    (clearChat st true (.ok ())).messages = [] ∧
      (clearChat st true (.ok ())).error = "" ∧
      (clearChat st true (.error e)).messages = st.messages := by
  refine ⟨rfl, rfl, rfl⟩

/-- C6: a confirmed successful removal of document id `pdfId` updates the
list to exactly the entries whose id differs from `pdfId` (a `filter`,
so every surviving entry is one of the original entries, unchanged — the
sublist conjunct); a confirmed failed removal leaves the list
unmodified. -/
theorem C6_remove_pdf_frame (st : ManagerState) (pdfId : Nat) (fn e : String) :
    (removePDF st pdfId fn true (.ok ())).pdfs =
        st.pdfs.filter (fun p => p.id != pdfId) ∧
      (removePDF st pdfId fn true (.ok ())).pdfs.Sublist st.pdfs ∧
      (removePDF st pdfId fn true (.error e)).pdfs = st.pdfs := by
  refine ⟨rfl, ?_, rfl⟩
  exact List.filter_sublist _

/-- C10: with blank (empty or whitespace-only) input or a request already
in flight, `sendMessage` returns the state unchanged — message list,
input field and error state included — and issues no HTTP request
(second component `none`). -/
theorem C10_send_message_guard (st : ChatState) (outcome : Except String BotReply)
    (tsU tsL tsB : String)
    (h : jsTrim st.input = "" ∨ st.isLoading = true) :
    sendMessage st outcome tsU tsL tsB = (st, none) := by
  have hc : (jsTrim st.input == "" || st.isLoading) = true := by
    rcases h with h | h <;> simp [h]
  simp [sendMessage, hc]

/-- Witness for C10 at a concrete state: whitespace-only input, one
displayed message, a reply available — nothing changes and no request is
issued. -/
theorem C10_send_message_guard_witness :
    (jsTrim "  " = "" ∨ (false : Bool) = true) ∧
      sendMessage ⟨"  ", [⟨"user", "old", "t0", false, false, none, false, 0⟩],
          false, "err"⟩ (.ok ⟨"reply", 7, true, 2⟩) "t1" "t2" "t3" =
        (⟨"  ", [⟨"user", "old", "t0", false, false, none, false, 0⟩],
          false, "err"⟩, none) :=
  ⟨Or.inl (by decide),
    C10_send_message_guard
      ⟨"  ", [⟨"user", "old", "t0", false, false, none, false, 0⟩], false, "err"⟩
      (.ok ⟨"reply", 7, true, 2⟩) "t1" "t2" "t3" (Or.inl (by decide))⟩

/-- C8 (counterexample): at one tebibyte (`1024 ^ 4` bytes) the computed
index `⌊log_1024 bytes⌋` is `4`, out of bounds for the four-element
`sizes` array — the JavaScript read yields `undefined` and the suffix is
not one of Bytes/KB/MB/GB, so the claim fails at this input. -/
theorem C8_size_unit_counterexample : sizeUnit (1024 ^ 4) ∉ sizesUnits := by
  have hlog : sizeIndex (1024 ^ 4) = 4 := Nat.log_pow (by norm_num) 4
  have hval : sizeUnit (1024 ^ 4) = "undefined" := by
    unfold sizeUnit
    rw [if_neg (by norm_num), hlog]
    rfl
  rw [hval]
  decide

/-- C8 (amended): for every byte count below one tebibyte
(`bytes < 1024 ^ 4`), the unit suffix `formatFileSize` picks is one of
Bytes/KB/MB/GB — the computed index stays within the `sizes` array. -/
theorem C8_size_unit_in_bounds (bytes : Nat) (h : bytes < 1024 ^ 4) :
    sizeUnit bytes ∈ sizesUnits := by
  unfold sizeUnit
  by_cases h0 : bytes = 0
  · rw [if_pos h0]
    decide
  · rw [if_neg h0]
    have hidx : sizeIndex bytes < 4 := Nat.log_lt_of_lt_pow h0 h
    have hlen : sizeIndex bytes < sizesUnits.length := by
      simpa [sizesUnits] using hidx
    rw [List.getD_eq_getElem sizesUnits "undefined" hlen]
    exact List.getElem_mem hlen

/-- Witness for C8 (amended) at 500 bytes. -/
theorem C8_size_unit_in_bounds_witness :
    500 < 1024 ^ 4 ∧ sizeUnit 500 ∈ sizesUnits :=
  ⟨by norm_num, C8_size_unit_in_bounds 500 (by norm_num)⟩

lemma mem_insertBy {α : Type} (le : α → α → Bool) (a x : α) (l : List α)
    (h : x ∈ insertBy le a l) : x = a ∨ x ∈ l := by
  induction l with
  | nil => simpa [insertBy] using h
  | cons b bs ih =>
    unfold insertBy at h
    by_cases hle : le a b = true
    · rw [if_pos hle] at h
      rcases List.mem_cons.mp h with h | h
      · exact Or.inl h
      · exact Or.inr h
    · rw [if_neg hle] at h
      rcases List.mem_cons.mp h with h | h
      · exact Or.inr (List.mem_cons.mpr (Or.inl h))
      · rcases ih h with h | h
        · exact Or.inl h
        · exact Or.inr (List.mem_cons.mpr (Or.inr h))

lemma mem_sortBy {α : Type} (le : α → α → Bool) (x : α) (l : List α)
    (h : x ∈ sortBy le l) : x ∈ l := by
  induction l with
  | nil => simpa [sortBy] using h
  | cons b bs ih =>
    unfold sortBy at h
    rw [List.foldr_cons] at h
    rcases mem_insertBy le b x _ h with h | h
    · exact List.mem_cons.mpr (Or.inl h)
    · exact List.mem_cons.mpr (Or.inr (ih (by simpa [sortBy] using h)))

/-- C1: a retrieval scoped to session `A` only ever returns rows of
session `A` — for any distinct sessions `A ≠ B`, any embedder, store,
query text and `k`, no returned chunk belongs to `B`.  `query` restricts
the store to the session's rows before ranking and truncation, and every
stored row (like every Document and Message of the relational model)
carries exactly one owning session. -/
theorem C1_retrieve_session_scoped (embed : String → List Int)
    (store : List ChunkRecord) (A B q : String) (k : Nat) (hAB : A ≠ B)
    (c : ChunkRecord) (hc : c ∈ retrieve embed store A q k) :
    c.sessionId = A ∧ c.sessionId ≠ B := by
  have h1 : c ∈ sortBy (fun a b => ranksBefore (embed q) a b)
      (store.filter (fun r => r.sessionId == A)) := List.mem_of_mem_take hc
  have h2 := mem_sortBy _ c _ h1
  have hA : c.sessionId = A := by simpa using (List.mem_filter.mp h2).2
  exact ⟨hA, hA ▸ hAB⟩

/-- Witness for C1: a store holding one chunk of session "A"; retrieval
for "A" returns it and its session differs from "B". -/
theorem C1_retrieve_session_scoped_witness :
    ("A" : String) ≠ "B" ∧
      chunkA ∈ retrieve (fun _ => [1]) [chunkA] "A" "question" 1 ∧
      chunkA.sessionId = "A" ∧ chunkA.sessionId ≠ "B" :=
  ⟨by decide, by decide,
    C1_retrieve_session_scoped (fun _ => [1]) [chunkA] "A" "B" "question" 1
      (by decide) chunkA (by decide)⟩

/-- C7: for every input text and every configuration with
`chunk_size > 0` and `overlap ≥ chunk_size`, the Chunker fails with
`InvalidChunkConfig` and produces no chunk sequence. -/
theorem C7_chunker_invalid_config (cfg : ChunkConfig) (text : String)
    (hpos : 0 < cfg.chunk_size) (hov : cfg.chunk_size ≤ cfg.overlap) :
    chunker cfg text = .error .InvalidChunkConfig := by
  unfold chunker
  rw [if_pos hov]

/-- Witness for C7: `chunk_size = 3 > 0`, `overlap = 5 ≥ 3`. -/
theorem C7_chunker_invalid_config_witness :
    0 < (3 : Nat) ∧ (3 : Nat) ≤ 5 ∧
      chunker ⟨3, 5⟩ "abcdef" = .error .InvalidChunkConfig :=
  ⟨by decide, by decide,
    C7_chunker_invalid_config ⟨3, 5⟩ "abcdef" (by decide) (by decide)⟩

end MedicalChatbot
